import Mathlib

/-!
Shallow embedding of `magnummsh/mesher.py` (the wrapper around the native
`cpp.Mesher` engine and the `dolfin.Mesh` container), together with proofs
about its dispatch, marshalling, retention and error-propagation behaviour.

The engine, the numpy element conversions and the dolfin constructor are
external collaborators of this file; they are modelled as opaque parameters
(a `MeshEngine` record of oracles, the conversion functions `toD`/`toI`, a
fresh container `freshMesh` and a constructor oracle `dolfinMesh`).  Python
floats and numpy doubles that flow back into Python are modelled as `ℚ`;
every property proved below is a structural identity that does not depend on
rounding.  A raised exception is modelled as `Except.error`.
-/

namespace MagnumMsh

/-- A 3-element vector: the shape of the numeric arrays exchanged with the
meshing engine. -/
structure Vec3 (α : Type) where
  x : α
  y : α
  z : α
deriving DecidableEq

/-- Embedding of `numpy.array(v, dtype="d")` on a 3-element input: element-wise
application of the external numpy double conversion `toD`. -/
def npArrayD {D : Type} (toD : ℚ → D) (v : Vec3 ℚ) : Vec3 D :=
  ⟨toD v.x, toD v.y, toD v.z⟩

/-- Embedding of `numpy.array(v, dtype="i")` on a 3-element input: element-wise
application of the external numpy fixed-width signed integer conversion
`toI`. -/
def npArrayI {I : Type} (toI : ℚ → I) (v : Vec3 ℚ) : Vec3 I :=
  ⟨toI v.x, toI v.y, toI v.z⟩

/-- A Python value as far as the dispatcher `Mesh` can observe it: a string
(modelled as its character list) or an opaque non-string object. -/
inductive PyVal where
  | str (s : List Char)
  | obj (tag : Nat)
deriving DecidableEq

/-- Keyword arguments of a Python call: name/value pairs in call order. -/
abbrev Kwargs := List (List Char × PyVal)

/-- One call into an external collaborator, as recorded in a trace:
the seven engine entry points used by `mesher.py`, the no-argument
`dolfin.Mesh()` allocation inside `Mesher.mesh`, and the direct
`dolfin.Mesh(*args, **kwargs)` constructor call of the dispatcher. -/
inductive ExtCall (C D I M : Type) where
  | engine_create_cuboid (size : Vec3 D) (n : Vec3 I)
  | engine_create_celldomain (domain : C) (domain_id : Int)
  | engine_create_facetdomain (domain : C) (domain_id : Int)
  | engine_create_shell (d : Int) (margin : ℚ) (n : Vec3 I) (progression : ℚ)
  | engine_mesh (mesh : M) (scale : ℚ)
  | engine_get_sample_size (i : Int)
  | engine_read_file (path : List Char)
  | dolfin_mesh_new
  | dolfin_mesh_ctor (args : List PyVal) (kwargs : Kwargs)
deriving DecidableEq

/-- The opaque native engine (`cpp.Mesher`), one oracle per entry point used by
the wrapper.  `C` classifiers, `D` doubles, `I` fixed-width ints, `M` meshes,
`Err` raised errors, `R` results of the `create_*` entry points. -/
structure MeshEngine (C D I M Err R : Type) where
  create_cuboid : Vec3 D → Vec3 I → Except Err R
  create_celldomain : C → Int → Except Err R
  create_facetdomain : C → Int → Except Err R
  create_shell : Int → ℚ → Vec3 I → ℚ → Except Err R
  mesh : M → ℚ → Except Err Unit
  get_sample_size : Int → Except Err ℚ
  read_file : List Char → Except Err Unit

/-- Equality of `Except` values is decidable when it is on both components;
used to evaluate the development on closed inputs. -/
def exceptDecEq {E A : Type} [DecidableEq E] [DecidableEq A] :
    (a b : Except E A) → Decidable (a = b)
  | Except.error e, Except.error f =>
    if h : e = f then Decidable.isTrue (by rw [h])
    else Decidable.isFalse (fun hh => h (Except.error.inj hh))
  | Except.error _, Except.ok _ => Decidable.isFalse (fun hh => Except.noConfusion hh)
  | Except.ok _, Except.error _ => Decidable.isFalse (fun hh => Except.noConfusion hh)
  | Except.ok a, Except.ok b =>
    if h : a = b then Decidable.isTrue (by rw [h])
    else Decidable.isFalse (fun hh => h (Except.ok.inj hh))

instance {E A : Type} [DecidableEq E] [DecidableEq A] : DecidableEq (Except E A) :=
  exceptDecEq

/-- The characters of the literal `.xml`. -/
def dotXml : List Char := ['.', 'x', 'm', 'l']

/-- Whether `s` literally ends with the four characters `.xml`. -/
def endsWithXml (s : List Char) : Bool :=
  List.isSuffixOf dotXml s

/-- Embedding of `re.match(r".*[.]xml$", s)` under Python semantics: the match
is anchored at the start, `.` does not match a newline, and `$` accepts either
the end of the string or the position just before one trailing newline. -/
def reMatchXml (s : List Char) : Bool :=
  (List.range (s.length + 1)).any (fun k =>
    (s.take k).all (fun c => c != '\n') &&
      (s.drop k == dotXml || s.drop k == dotXml ++ ['\n']))

/-- The Python-level state of a `Mesher` object: the two retention lists
created by `Mesher.__init__` and appended to by `create_celldomain` and
`create_facetdomain`. -/
structure MesherState (C : Type) where
  celldomains : List C
  facetdomains : List C
deriving DecidableEq

/-- Embedding of `Mesher.__init__`: both retention lists start empty. -/
def Mesher.init {C : Type} : MesherState C :=
  ⟨[], []⟩

/-- Embedding of `Mesher.create_cuboid`: coerce `size` to a double vector and
`n` to an integer vector via numpy and forward both to the engine, with no
validation and no handling of the engine's result or error. -/
def Mesher.create_cuboid {C D I M Err R : Type} (eng : MeshEngine C D I M Err R)
    (toD : ℚ → D) (toI : ℚ → I) (st : MesherState C) (size n : Vec3 ℚ) :
    MesherState C × List (ExtCall C D I M) × Except Err R :=
  (st, [ExtCall.engine_create_cuboid (npArrayD toD size) (npArrayI toI n)],
    eng.create_cuboid (npArrayD toD size) (npArrayI toI n))

/-- Embedding of `Mesher.create_celldomain`: append the classifier to the
cell retention list (the source comment: keep a reference to the domain),
then forward to the engine. -/
def Mesher.create_celldomain {C D I M Err R : Type} (eng : MeshEngine C D I M Err R)
    (st : MesherState C) (domain : C) (domain_id : Int) :
    MesherState C × List (ExtCall C D I M) × Except Err R :=
  ({ st with celldomains := st.celldomains ++ [domain] },
    [ExtCall.engine_create_celldomain domain domain_id],
    eng.create_celldomain domain domain_id)

/-- Embedding of `Mesher.create_facetdomain`: append the classifier to the
facet retention list, then forward to the engine. -/
def Mesher.create_facetdomain {C D I M Err R : Type} (eng : MeshEngine C D I M Err R)
    (st : MesherState C) (domain : C) (domain_id : Int) :
    MesherState C × List (ExtCall C D I M) × Except Err R :=
  ({ st with facetdomains := st.facetdomains ++ [domain] },
    [ExtCall.engine_create_facetdomain domain domain_id],
    eng.create_facetdomain domain domain_id)

/-- Embedding of `Mesher.create_shell`: the optional arguments carry the
source defaults `margin = 0.0`, `n = (0,0,0)`, `progression = 1.0`; `n` is
coerced via numpy and all four parameters are forwarded positionally. -/
def Mesher.create_shell {C D I M Err R : Type} (eng : MeshEngine C D I M Err R)
    (toI : ℚ → I) (st : MesherState C) (d : Int) (margin : Option ℚ)
    (n : Option (Vec3 ℚ)) (progression : Option ℚ) :
    MesherState C × List (ExtCall C D I M) × Except Err R :=
  (st,
    [ExtCall.engine_create_shell d (margin.getD 0) (npArrayI toI (n.getD ⟨0, 0, 0⟩))
      (progression.getD 1)],
    eng.create_shell d (margin.getD 0) (npArrayI toI (n.getD ⟨0, 0, 0⟩))
      (progression.getD 1))

/-- Embedding of `Mesher.mesh`: `scale` defaults to `1.0`; when the `mesh`
argument is `None` a fresh `dolfin.Mesh()` is allocated (modelled by the
external value `freshMesh`); the chosen container is passed with the scale to
the engine's meshing routine and returned, unless the engine raises. -/
def Mesher.mesh {C D I M Err R : Type} (eng : MeshEngine C D I M Err R)
    (freshMesh : M) (st : MesherState C) (scale : Option ℚ) (mesh : Option M) :
    MesherState C × List (ExtCall C D I M) × Except Err M :=
  match mesh with
  | none =>
    (st, [ExtCall.dolfin_mesh_new, ExtCall.engine_mesh freshMesh (scale.getD 1)],
      match eng.mesh freshMesh (scale.getD 1) with
      | Except.error e => Except.error e
      | Except.ok _ => Except.ok freshMesh)
  | some m =>
    (st, [ExtCall.engine_mesh m (scale.getD 1)],
      match eng.mesh m (scale.getD 1) with
      | Except.error e => Except.error e
      | Except.ok _ => Except.ok m)

/-- Embedding of `Mesher.get_sample_size`: with an axis `i` it returns the
engine's sample size along `i` times `scale`; with `i = None` it runs the
source's `for i in range(3)` loop, each iteration appending the engine's
sample size along `i` times `scale`, and returns the list. -/
def Mesher.get_sample_size {C D I M Err R : Type} (eng : MeshEngine C D I M Err R)
    (st : MesherState C) (i : Option Int) (scale : Option ℚ) :
    MesherState C × List (ExtCall C D I M) × Except Err (ℚ ⊕ List ℚ) :=
  match i with
  | some j =>
    (st, [ExtCall.engine_get_sample_size j],
      match eng.get_sample_size j with
      | Except.error e => Except.error e
      | Except.ok v => Except.ok (Sum.inl (v * scale.getD 1)))
  | none =>
    match eng.get_sample_size 0 with
    | Except.error e => (st, [ExtCall.engine_get_sample_size 0], Except.error e)
    | Except.ok v0 =>
      match eng.get_sample_size 1 with
      | Except.error e =>
        (st, [ExtCall.engine_get_sample_size 0, ExtCall.engine_get_sample_size 1],
          Except.error e)
      | Except.ok v1 =>
        match eng.get_sample_size 2 with
        | Except.error e =>
          (st, [ExtCall.engine_get_sample_size 0, ExtCall.engine_get_sample_size 1,
            ExtCall.engine_get_sample_size 2], Except.error e)
        | Except.ok v2 =>
          (st, [ExtCall.engine_get_sample_size 0, ExtCall.engine_get_sample_size 1,
            ExtCall.engine_get_sample_size 2],
            Except.ok (Sum.inr [v0 * scale.getD 1, v1 * scale.getD 1,
              v2 * scale.getD 1]))

/-- The engine method `read_file` as seen on a `Mesher` object: the Python
subclass does not override it, so the call goes straight to the engine and
touches no Python-level state. -/
def Mesher.read_file {C D I M Err R : Type} (eng : MeshEngine C D I M Err R)
    (st : MesherState C) (path : List Char) :
    MesherState C × List (ExtCall C D I M) × Except Err Unit :=
  (st, [ExtCall.engine_read_file path], eng.read_file path)

/-- Which branch the module-level dispatcher `Mesh` took. -/
inductive MeshRoute where
  | viaMesher (path : List Char)
  | viaDolfin (args : List PyVal) (kwargs : Kwargs)
  | typeError
deriving DecidableEq

/-- Embedding of the module-level function `Mesh(*args, **kwargs)`: with
exactly one positional string argument not matched by `.*[.]xml$` it builds a
`Mesher`, calls `read_file` on the path and returns `mesher.mesh()` with
default arguments; with one non-string argument `re.match` raises a
`TypeError` (modelled by `reErr`); otherwise it forwards all positional and
keyword arguments unchanged to `dolfin.Mesh` (the oracle `dolfinMesh`). -/
def Mesh {C D I M Err R : Type} (eng : MeshEngine C D I M Err R) (freshMesh : M)
    (dolfinMesh : List PyVal → Kwargs → Except Err M) (reErr : Err)
    (args : List PyVal) (kwargs : Kwargs) :
    MeshRoute × List (ExtCall C D I M) × Except Err M :=
  match args with
  | [PyVal.str s] =>
    if reMatchXml s then
      (MeshRoute.viaDolfin args kwargs, [ExtCall.dolfin_mesh_ctor args kwargs],
        dolfinMesh args kwargs)
    else
      match eng.read_file s with
      | Except.error e =>
        (MeshRoute.viaMesher s, [ExtCall.engine_read_file s], Except.error e)
      | Except.ok _ =>
        (MeshRoute.viaMesher s,
          ExtCall.engine_read_file s :: (Mesher.mesh eng freshMesh Mesher.init none none).2.1,
          (Mesher.mesh eng freshMesh Mesher.init none none).2.2)
  | [PyVal.obj _] => (MeshRoute.typeError, [], Except.error reErr)
  | _ =>
    (MeshRoute.viaDolfin args kwargs, [ExtCall.dolfin_mesh_ctor args kwargs],
      dolfinMesh args kwargs)

/-- One builder operation, for stating lifetime invariants over arbitrary
call sequences. -/
inductive MesherOp (C M : Type) where
  | create_cuboid (size n : Vec3 ℚ)
  | create_celldomain (domain : C) (domain_id : Int)
  | create_facetdomain (domain : C) (domain_id : Int)
  | create_shell (d : Int) (margin : Option ℚ) (n : Option (Vec3 ℚ)) (progression : Option ℚ)
  | mesh (scale : Option ℚ) (m : Option M)
  | get_sample_size (i : Option Int) (scale : Option ℚ)
  | read_file (path : List Char)
deriving DecidableEq

/-- The effect of one builder operation on the Python-level state. -/
def Mesher.step {C D I M Err R : Type} (eng : MeshEngine C D I M Err R)
    (toD : ℚ → D) (toI : ℚ → I) (freshMesh : M)
    (st : MesherState C) (op : MesherOp C M) : MesherState C :=
  match op with
  | MesherOp.create_cuboid size n => (Mesher.create_cuboid eng toD toI st size n).1
  | MesherOp.create_celldomain d i => (Mesher.create_celldomain eng st d i).1
  | MesherOp.create_facetdomain d i => (Mesher.create_facetdomain eng st d i).1
  | MesherOp.create_shell d m n p => (Mesher.create_shell eng toI st d m n p).1
  | MesherOp.mesh sc m => (Mesher.mesh eng freshMesh st sc m).1
  | MesherOp.get_sample_size i sc => (Mesher.get_sample_size eng st i sc).1
  | MesherOp.read_file p => (Mesher.read_file eng st p).1

/-- The state after a sequence of builder operations. -/
def Mesher.run {C D I M Err R : Type} (eng : MeshEngine C D I M Err R)
    (toD : ℚ → D) (toI : ℚ → I) (freshMesh : M)
    (st : MesherState C) (ops : List (MesherOp C M)) : MesherState C :=
  ops.foldl (Mesher.step eng toD toI freshMesh) st

/-- A concrete engine over simple types, used to evaluate the development on
closed inputs. -/
def natEngine : MeshEngine Nat ℚ Int Nat Nat Nat where
  create_cuboid := fun _ _ => Except.ok 0
  create_celldomain := fun _ _ => Except.ok 1
  create_facetdomain := fun _ _ => Except.ok 2
  create_shell := fun _ _ _ _ => Except.ok 3
  mesh := fun _ _ => Except.ok ()
  get_sample_size := fun i => Except.ok ((i : ℚ) + 7)
  read_file := fun _ => Except.ok ()

/-- A concrete engine whose every entry point raises, used to evaluate the
error-path behaviour on closed inputs. -/
def failEngine : MeshEngine Nat ℚ Int Nat Nat Nat where
  create_cuboid := fun _ _ => Except.error 13
  create_celldomain := fun _ _ => Except.error 13
  create_facetdomain := fun _ _ => Except.error 13
  create_shell := fun _ _ _ _ => Except.error 13
  mesh := fun _ _ => Except.error 13
  get_sample_size := fun _ => Except.error 13
  read_file := fun _ => Except.error 13

/-- A concrete `dolfin.Mesh` constructor oracle whose result depends on both
the positional and the keyword arguments. -/
def natDolfin : List PyVal → Kwargs → Except Nat Nat :=
  fun args kwargs => Except.ok (args.length + 10 * kwargs.length)

/-- C6: `create_cuboid` forwards to the engine exactly the double vector
coerced from `size` and the integer vector coerced from `n`, for every input
(in particular with no positivity or non-zero validation), and hands the
engine's result back untouched. -/
theorem create_cuboid_forwards_coerced :
    ∀ (C D I M Err R : Type) (eng : MeshEngine C D I M Err R) (toD : ℚ → D)
      (toI : ℚ → I) (st : MesherState C) (size n : Vec3 ℚ),
      Mesher.create_cuboid eng toD toI st size n
        = (st,
            [ExtCall.engine_create_cuboid ⟨toD size.x, toD size.y, toD size.z⟩
              ⟨toI n.x, toI n.y, toI n.z⟩],
            eng.create_cuboid ⟨toD size.x, toD size.y, toD size.z⟩
              ⟨toI n.x, toI n.y, toI n.z⟩) := by
  intros
  rfl

/-- C7: `create_shell` coerces `n` to an integer vector and forwards the four
parameters positionally; omitted optional arguments take the defaults
`margin = 0.0`, `n = (0,0,0)`, `progression = 1.0`. -/
theorem create_shell_forwards_defaults :
    ∀ (C D I M Err R : Type) (eng : MeshEngine C D I M Err R) (toI : ℚ → I)
      (st : MesherState C) (d : Int) (margin : Option ℚ) (n : Option (Vec3 ℚ))
      (progression : Option ℚ),
      Mesher.create_shell eng toI st d margin n progression
        = (st,
            [ExtCall.engine_create_shell d (margin.getD 0)
              (npArrayI toI (n.getD ⟨0, 0, 0⟩)) (progression.getD 1)],
            eng.create_shell d (margin.getD 0) (npArrayI toI (n.getD ⟨0, 0, 0⟩))
              (progression.getD 1))
      ∧ Mesher.create_shell eng toI st d none none none
        = (st, [ExtCall.engine_create_shell d 0 ⟨toI 0, toI 0, toI 0⟩ 1],
            eng.create_shell d 0 ⟨toI 0, toI 0, toI 0⟩ 1) := by
  intros
  exact ⟨rfl, rfl⟩

/-- C9: the classifier is appended to the retention list before the engine is
consulted, so even when the engine call raises, the new state already holds
the classifier: the operation is not atomic with respect to the lists. -/
theorem domain_append_precedes_engine :
    ∀ (C D I M Err R : Type) (eng : MeshEngine C D I M Err R) (st : MesherState C)
      (domain : C) (domain_id : Int) (e : Err),
      (eng.create_celldomain domain domain_id = Except.error e →
        (Mesher.create_celldomain eng st domain domain_id).1
            = { st with celldomains := st.celldomains ++ [domain] }
          ∧ (Mesher.create_celldomain eng st domain domain_id).2.2 = Except.error e)
      ∧ (eng.create_facetdomain domain domain_id = Except.error e →
        (Mesher.create_facetdomain eng st domain domain_id).1
            = { st with facetdomains := st.facetdomains ++ [domain] }
          ∧ (Mesher.create_facetdomain eng st domain domain_id).2.2 = Except.error e) := by
  intros
  exact ⟨fun h => ⟨rfl, h⟩, fun h => ⟨rfl, h⟩⟩

/-- Witness for C9 on the all-raising engine. -/
theorem domain_append_precedes_engine_witness :
    ((Mesher.create_celldomain failEngine (⟨[], []⟩ : MesherState Nat) 4 2).1
        = { celldomains := [4], facetdomains := [] }
      ∧ (Mesher.create_celldomain failEngine (⟨[], []⟩ : MesherState Nat) 4 2).2.2
        = Except.error 13)
    ∧ ((Mesher.create_facetdomain failEngine (⟨[], []⟩ : MesherState Nat) 4 2).1
        = { celldomains := [], facetdomains := [4] }
      ∧ (Mesher.create_facetdomain failEngine (⟨[], []⟩ : MesherState Nat) 4 2).2.2
        = Except.error 13) :=
  have h := domain_append_precedes_engine Nat ℚ Int Nat Nat Nat failEngine ⟨[], []⟩ 4 2 13
  ⟨h.1 rfl, h.2 rfl⟩

/-- C4: with no target, `Mesher.mesh` allocates a fresh container, passes it
with the scale to the engine's meshing routine and (when the engine does not
raise) returns exactly that container; with a caller-supplied target the very
same target is passed to the engine and returned. -/
theorem mesh_target_identity :
    ∀ (C D I M Err R : Type) (eng : MeshEngine C D I M Err R) (freshMesh : M)
      (st : MesherState C) (scale : Option ℚ),
      ((Mesher.mesh eng freshMesh st scale none).2.1
          = [ExtCall.dolfin_mesh_new, ExtCall.engine_mesh freshMesh (scale.getD 1)]
        ∧ (∀ u, eng.mesh freshMesh (scale.getD 1) = Except.ok u →
            (Mesher.mesh eng freshMesh st scale none).2.2 = Except.ok freshMesh))
      ∧ (∀ m : M, (Mesher.mesh eng freshMesh st scale (some m)).2.1
          = [ExtCall.engine_mesh m (scale.getD 1)]
        ∧ (∀ u, eng.mesh m (scale.getD 1) = Except.ok u →
            (Mesher.mesh eng freshMesh st scale (some m)).2.2 = Except.ok m)) := by
  intro C D I M Err R eng freshMesh st scale
  refine ⟨⟨rfl, fun u hu => ?_⟩, fun m => ⟨rfl, fun u hu => ?_⟩⟩
  · show (match eng.mesh freshMesh (scale.getD 1) with
      | Except.error e => Except.error e
      | Except.ok _ => Except.ok freshMesh) = Except.ok freshMesh
    rw [hu]
  · show (match eng.mesh m (scale.getD 1) with
      | Except.error e => Except.error e
      | Except.ok _ => Except.ok m) = Except.ok m
    rw [hu]

/-- Witness for C4 on a concrete engine. -/
theorem mesh_target_identity_witness :
    ((Mesher.mesh natEngine 5 (⟨[], []⟩ : MesherState Nat) none none).2.1
        = [ExtCall.dolfin_mesh_new, ExtCall.engine_mesh 5 1]
      ∧ (Mesher.mesh natEngine 5 (⟨[], []⟩ : MesherState Nat) none none).2.2
        = Except.ok 5)
    ∧ ((Mesher.mesh natEngine 5 (⟨[], []⟩ : MesherState Nat) none (some 8)).2.1
        = [ExtCall.engine_mesh 8 1]
      ∧ (Mesher.mesh natEngine 5 (⟨[], []⟩ : MesherState Nat) none (some 8)).2.2
        = Except.ok 8) :=
  have h := mesh_target_identity Nat ℚ Int Nat Nat Nat natEngine 5 ⟨[], []⟩ none
  ⟨⟨h.1.1, h.1.2 () rfl⟩, ⟨(h.2 8).1, (h.2 8).2 () rfl⟩⟩

/-- C5: when the engine yields a sample size on each of the three axes, the
no-axis call returns the 3-element list whose entries are, in axis order,
exactly the values returned by the single-axis calls, each being the engine's
per-axis sample size multiplied by the scale. -/
theorem get_sample_size_componentwise :
    ∀ (C D I M Err R : Type) (eng : MeshEngine C D I M Err R) (st : MesherState C)
      (scale : Option ℚ) (v0 v1 v2 : ℚ),
      eng.get_sample_size 0 = Except.ok v0 →
      eng.get_sample_size 1 = Except.ok v1 →
      eng.get_sample_size 2 = Except.ok v2 →
        (Mesher.get_sample_size eng st none scale).2.2
            = Except.ok (Sum.inr [v0 * scale.getD 1, v1 * scale.getD 1,
                v2 * scale.getD 1])
        ∧ (Mesher.get_sample_size eng st (some 0) scale).2.2
            = Except.ok (Sum.inl (v0 * scale.getD 1))
        ∧ (Mesher.get_sample_size eng st (some 1) scale).2.2
            = Except.ok (Sum.inl (v1 * scale.getD 1))
        ∧ (Mesher.get_sample_size eng st (some 2) scale).2.2
            = Except.ok (Sum.inl (v2 * scale.getD 1)) := by
  intro C D I M Err R eng st scale v0 v1 v2 h0 h1 h2
  refine ⟨?_, ?_, ?_, ?_⟩ <;>
    simp only [Mesher.get_sample_size, h0, h1, h2]

/-- Witness for C5 on a concrete engine with a concrete scale. -/
theorem get_sample_size_componentwise_witness :
    (Mesher.get_sample_size natEngine (⟨[], []⟩ : MesherState Nat) none (some 2)).2.2
        = Except.ok (Sum.inr [14, 16, 18])
      ∧ (Mesher.get_sample_size natEngine (⟨[], []⟩ : MesherState Nat) (some 0)
          (some 2)).2.2 = Except.ok (Sum.inl 14) := by
  have h := get_sample_size_componentwise Nat ℚ Int Nat Nat Nat natEngine ⟨[], []⟩
    (some 2) 7 8 9 (by norm_num [natEngine]) (by norm_num [natEngine])
    (by norm_num [natEngine])
  refine ⟨?_, ?_⟩
  · rw [h.1]
    norm_num
  · rw [h.2.1]
    norm_num

/-- C1 (amended): for a single positional string argument that the dispatch
pattern `.*[.]xml$` does not match (for newline-free strings: exactly the
strings not ending in `.xml`), `Mesh` builds a fresh `Mesher`, calls the
file-read operation with the path, then `Mesher.mesh` with default arguments,
returns its result, and never calls the native constructor directly. -/
theorem Mesh_single_nonmatch_via_mesher :
    ∀ (C D I M Err R : Type) (eng : MeshEngine C D I M Err R) (freshMesh : M)
      (dolfinMesh : List PyVal → Kwargs → Except Err M) (reErr : Err)
      (s : List Char) (kwargs : Kwargs),
      reMatchXml s = false →
        (Mesh eng freshMesh dolfinMesh reErr [PyVal.str s] kwargs).1
            = MeshRoute.viaMesher s
        ∧ (∀ a k, ExtCall.dolfin_mesh_ctor a k
            ∉ (Mesh eng freshMesh dolfinMesh reErr [PyVal.str s] kwargs).2.1)
        ∧ (∀ u, eng.read_file s = Except.ok u →
            (Mesh eng freshMesh dolfinMesh reErr [PyVal.str s] kwargs).2.1
                = ExtCall.engine_read_file s
                  :: (Mesher.mesh eng freshMesh Mesher.init none none).2.1
              ∧ (Mesh eng freshMesh dolfinMesh reErr [PyVal.str s] kwargs).2.2
                = (Mesher.mesh eng freshMesh Mesher.init none none).2.2)
        ∧ (∀ e, eng.read_file s = Except.error e →
            (Mesh eng freshMesh dolfinMesh reErr [PyVal.str s] kwargs).2.2
              = Except.error e) := by
  intro C D I M Err R eng freshMesh dolfinMesh reErr s kwargs hs
  cases hr : eng.read_file s with
  | error e =>
    refine ⟨?_, ?_, ?_, ?_⟩ <;>
      simp [Mesh, hs, hr, Mesher.mesh, Mesher.init]
  | ok u =>
    refine ⟨?_, ?_, ?_, ?_⟩ <;>
      simp [Mesh, hs, hr, Mesher.mesh, Mesher.init]

/-- Witness for the amended C1 on a concrete engine and a `.stl` path. -/
theorem Mesh_single_nonmatch_via_mesher_witness :
    (Mesh natEngine 5 natDolfin 99 [PyVal.str ("model.stl".toList)] []).1
        = MeshRoute.viaMesher ("model.stl".toList)
      ∧ ExtCall.dolfin_mesh_ctor [] []
        ∉ (Mesh natEngine 5 natDolfin 99 [PyVal.str ("model.stl".toList)] []).2.1
      ∧ (Mesh natEngine 5 natDolfin 99 [PyVal.str ("model.stl".toList)] []).2.2
        = (Mesher.mesh natEngine 5 Mesher.init none none).2.2 :=
  have h := Mesh_single_nonmatch_via_mesher Nat ℚ Int Nat Nat Nat natEngine 5
    natDolfin 99 ("model.stl".toList) [] (by decide)
  ⟨h.1, h.2.1 [] [], (h.2.2.1 () rfl).2⟩

/-- C1 as stated fails: the single argument `"a.xml\n"` is a string that does
not end in the literal suffix `.xml`, yet the dispatcher routes it to the
native constructor (Python `$` also matches just before one trailing newline),
so no `Mesher` is built on that path. -/
theorem Mesh_trailing_newline_counterexample :
    endsWithXml ("a.xml\n".toList) = false
    ∧ (Mesh natEngine 5 natDolfin 99 [PyVal.str ("a.xml\n".toList)] []).1
        = MeshRoute.viaDolfin [PyVal.str ("a.xml\n".toList)] []
    ∧ (Mesh natEngine 5 natDolfin 99 [PyVal.str ("a.xml\n".toList)] []).2.1
        = [ExtCall.dolfin_mesh_ctor [PyVal.str ("a.xml\n".toList)] []] := by
  decide

/-- C2 (amended): with zero positional arguments, with two or more positional
arguments, or with a single string argument matched by the dispatch pattern
`.*[.]xml$` (for newline-free strings: exactly the strings ending in `.xml`),
`Mesh` forwards all positional and keyword arguments unchanged to the native
constructor and performs no engine or builder call at all. -/
theorem Mesh_bypass_forwards_args :
    ∀ (C D I M Err R : Type) (eng : MeshEngine C D I M Err R) (freshMesh : M)
      (dolfinMesh : List PyVal → Kwargs → Except Err M) (reErr : Err)
      (args : List PyVal) (kwargs : Kwargs),
      (args.length ≠ 1 ∨ ∃ s, args = [PyVal.str s] ∧ reMatchXml s = true) →
        Mesh eng freshMesh dolfinMesh reErr args kwargs
          = (MeshRoute.viaDolfin args kwargs,
              [ExtCall.dolfin_mesh_ctor args kwargs], dolfinMesh args kwargs) := by
  intro C D I M Err R eng freshMesh dolfinMesh reErr args kwargs h
  rcases h with h | ⟨s, rfl, hs⟩
  · match args with
    | [] => rfl
    | [a] => exact absurd rfl h
    | a :: b :: t => cases a <;> rfl
  · simp [Mesh, hs]

/-- Witness for the amended C2: a zero-argument call and a single `.xml`
argument both go straight to the native constructor. -/
theorem Mesh_bypass_forwards_args_witness :
    Mesh natEngine 5 natDolfin 99 [] [("k".toList, PyVal.obj 3)]
        = (MeshRoute.viaDolfin [] [("k".toList, PyVal.obj 3)],
            [ExtCall.dolfin_mesh_ctor [] [("k".toList, PyVal.obj 3)]],
            natDolfin [] [("k".toList, PyVal.obj 3)])
      ∧ Mesh natEngine 5 natDolfin 99 [PyVal.str ("saved.xml".toList)] []
        = (MeshRoute.viaDolfin [PyVal.str ("saved.xml".toList)] [],
            [ExtCall.dolfin_mesh_ctor [PyVal.str ("saved.xml".toList)] []],
            natDolfin [PyVal.str ("saved.xml".toList)] []) :=
  ⟨Mesh_bypass_forwards_args Nat ℚ Int Nat Nat Nat natEngine 5 natDolfin 99 []
      [("k".toList, PyVal.obj 3)] (Or.inl (by decide)),
    Mesh_bypass_forwards_args Nat ℚ Int Nat Nat Nat natEngine 5 natDolfin 99
      [PyVal.str ("saved.xml".toList)] []
      (Or.inr ⟨"saved.xml".toList, rfl, by decide⟩)⟩

/-- C2 as stated fails: the single argument `"a\n.xml"` is a string ending in
the literal suffix `.xml`, yet the dispatcher routes it through the builder
and invokes the engine (Python `.` in the pattern cannot cross the embedded
newline), instead of forwarding to the native constructor. -/
theorem Mesh_embedded_newline_counterexample :
    endsWithXml ("a\n.xml".toList) = true
    ∧ (Mesh natEngine 5 natDolfin 99 [PyVal.str ("a\n.xml".toList)] []).1
        = MeshRoute.viaMesher ("a\n.xml".toList)
    ∧ ExtCall.engine_read_file ("a\n.xml".toList)
        ∈ (Mesh natEngine 5 natDolfin 99 [PyVal.str ("a\n.xml".toList)] []).2.1 := by
  decide

/-- C10 (amended): for a single positional string argument that the dispatch
pattern `.*[.]xml$` does not match, the call routes through the builder and
every keyword argument is silently discarded: the outcome is identical to the
call with no keyword arguments at all. -/
theorem Mesh_kwargs_ignored_nonmatch :
    ∀ (C D I M Err R : Type) (eng : MeshEngine C D I M Err R) (freshMesh : M)
      (dolfinMesh : List PyVal → Kwargs → Except Err M) (reErr : Err)
      (s : List Char) (kwargs : Kwargs),
      reMatchXml s = false →
        Mesh eng freshMesh dolfinMesh reErr [PyVal.str s] kwargs
            = Mesh eng freshMesh dolfinMesh reErr [PyVal.str s] []
        ∧ (Mesh eng freshMesh dolfinMesh reErr [PyVal.str s] kwargs).1
            = MeshRoute.viaMesher s := by
  intro C D I M Err R eng freshMesh dolfinMesh reErr s kwargs hs
  cases hr : eng.read_file s with
  | error e => refine ⟨?_, ?_⟩ <;> simp [Mesh, hs, hr]
  | ok u => refine ⟨?_, ?_⟩ <;> simp [Mesh, hs, hr]

/-- Witness for the amended C10 on a concrete engine. -/
theorem Mesh_kwargs_ignored_nonmatch_witness :
    Mesh natEngine 5 natDolfin 99 [PyVal.str ("model.stl".toList)]
        [("k".toList, PyVal.obj 0)]
      = Mesh natEngine 5 natDolfin 99 [PyVal.str ("model.stl".toList)] [] :=
  (Mesh_kwargs_ignored_nonmatch Nat ℚ Int Nat Nat Nat natEngine 5 natDolfin 99
    ("model.stl".toList) [("k".toList, PyVal.obj 0)] (by decide)).1

/-- C10 as stated fails: with the single argument `"a.xml\n"` (a string not
ending in `.xml`) and a keyword argument, the dispatcher takes the native
constructor branch and forwards the keyword argument instead of discarding
it: the result differs from the kwargs-free call. -/
theorem Mesh_kwargs_forwarded_counterexample :
    endsWithXml ("a.xml\n".toList) = false
    ∧ (Mesh natEngine 5 natDolfin 99 [PyVal.str ("a.xml\n".toList)]
        [("k".toList, PyVal.obj 0)]).1
      = MeshRoute.viaDolfin [PyVal.str ("a.xml\n".toList)] [("k".toList, PyVal.obj 0)]
    ∧ (Mesh natEngine 5 natDolfin 99 [PyVal.str ("a.xml\n".toList)]
        [("k".toList, PyVal.obj 0)]).2.2 = Except.ok 11
    ∧ (Mesh natEngine 5 natDolfin 99 [PyVal.str ("a.xml\n".toList)] []).2.2
      = Except.ok 1 := by
  decide

/-- Helper: `Mesher.mesh` never touches the Python-level state. -/
theorem mesh_state_eq {C D I M Err R : Type} (eng : MeshEngine C D I M Err R)
    (freshMesh : M) (st : MesherState C) (scale : Option ℚ) (mesh : Option M) :
    (Mesher.mesh eng freshMesh st scale mesh).1 = st := by
  cases mesh <;> rfl

/-- Helper: `Mesher.get_sample_size` never touches the Python-level state. -/
theorem get_sample_size_state_eq {C D I M Err R : Type}
    (eng : MeshEngine C D I M Err R) (st : MesherState C) (i : Option Int)
    (scale : Option ℚ) :
    (Mesher.get_sample_size eng st i scale).1 = st := by
  cases i with
  | some j => rfl
  | none =>
    cases h0 : eng.get_sample_size 0 with
    | error e => simp [Mesher.get_sample_size, h0]
    | ok v0 =>
      cases h1 : eng.get_sample_size 1 with
      | error e => simp [Mesher.get_sample_size, h0, h1]
      | ok v1 =>
        cases h2 : eng.get_sample_size 2 with
        | error e => simp [Mesher.get_sample_size, h0, h1, h2]
        | ok v2 => simp [Mesher.get_sample_size, h0, h1, h2]

/-- Helper: every builder operation only ever appends to the two retention
lists. -/
theorem step_retention {C D I M Err R : Type} (eng : MeshEngine C D I M Err R)
    (toD : ℚ → D) (toI : ℚ → I) (freshMesh : M) (st : MesherState C)
    (op : MesherOp C M) :
    ∃ t1 t2,
      (Mesher.step eng toD toI freshMesh st op).celldomains = st.celldomains ++ t1
      ∧ (Mesher.step eng toD toI freshMesh st op).facetdomains
        = st.facetdomains ++ t2 := by
  cases op with
  | create_cuboid size n =>
    exact ⟨[], [], (List.append_nil _).symm, (List.append_nil _).symm⟩
  | create_celldomain d i => exact ⟨[d], [], rfl, (List.append_nil _).symm⟩
  | create_facetdomain d i => exact ⟨[], [d], (List.append_nil _).symm, rfl⟩
  | create_shell d m n p =>
    exact ⟨[], [], (List.append_nil _).symm, (List.append_nil _).symm⟩
  | mesh sc m =>
    exact ⟨[], [], by simp [Mesher.step, mesh_state_eq],
      by simp [Mesher.step, mesh_state_eq]⟩
  | get_sample_size i sc =>
    exact ⟨[], [], by simp [Mesher.step, get_sample_size_state_eq],
      by simp [Mesher.step, get_sample_size_state_eq]⟩
  | read_file p =>
    exact ⟨[], [], (List.append_nil _).symm, (List.append_nil _).symm⟩

/-- Helper: membership in a retention list survives any further run of
builder operations. -/
theorem run_mem_celldomains {C D I M Err R : Type} (eng : MeshEngine C D I M Err R)
    (toD : ℚ → D) (toI : ℚ → I) (freshMesh : M) :
    ∀ (ops : List (MesherOp C M)) (st : MesherState C) (x : C),
      x ∈ st.celldomains →
        x ∈ (Mesher.run eng toD toI freshMesh st ops).celldomains := by
  intro ops
  induction ops with
  | nil => intro st x h; exact h
  | cons op rest ih =>
    intro st x h
    rcases step_retention eng toD toI freshMesh st op with ⟨t1, t2, h1, h2⟩
    exact ih (Mesher.step eng toD toI freshMesh st op) x
      (by rw [h1]; exact List.mem_append_left _ h)

/-- Helper: membership in the facet retention list survives any further run
of builder operations. -/
theorem run_mem_facetdomains {C D I M Err R : Type} (eng : MeshEngine C D I M Err R)
    (toD : ℚ → D) (toI : ℚ → I) (freshMesh : M) :
    ∀ (ops : List (MesherOp C M)) (st : MesherState C) (x : C),
      x ∈ st.facetdomains →
        x ∈ (Mesher.run eng toD toI freshMesh st ops).facetdomains := by
  intro ops
  induction ops with
  | nil => intro st x h; exact h
  | cons op rest ih =>
    intro st x h
    rcases step_retention eng toD toI freshMesh st op with ⟨t1, t2, h1, h2⟩
    exact ih (Mesher.step eng toD toI freshMesh st op) x
      (by rw [h2]; exact List.mem_append_left _ h)

/-- C3: each classifier passed to `create_celldomain` / `create_facetdomain`
is appended to the corresponding retention list, which the other operations
leave untouched; the lists only grow along any run of operations, and a
retained classifier stays reachable through the builder's state for the rest
of its lifetime. -/
theorem retention_monotone :
    ∀ (C D I M Err R : Type) (eng : MeshEngine C D I M Err R) (toD : ℚ → D)
      (toI : ℚ → I) (freshMesh : M) (st : MesherState C),
      (∀ (domain : C) (domain_id : Int),
        (Mesher.create_celldomain eng st domain domain_id).1.celldomains
            = st.celldomains ++ [domain]
        ∧ (Mesher.create_celldomain eng st domain domain_id).1.facetdomains
            = st.facetdomains)
      ∧ (∀ (domain : C) (domain_id : Int),
        (Mesher.create_facetdomain eng st domain domain_id).1.facetdomains
            = st.facetdomains ++ [domain]
        ∧ (Mesher.create_facetdomain eng st domain domain_id).1.celldomains
            = st.celldomains)
      ∧ (∀ op : MesherOp C M, ∃ t1 t2,
          (Mesher.step eng toD toI freshMesh st op).celldomains
              = st.celldomains ++ t1
          ∧ (Mesher.step eng toD toI freshMesh st op).facetdomains
              = st.facetdomains ++ t2)
      ∧ (∀ op : MesherOp C M,
          (∀ (domain : C) (domain_id : Int),
            op ≠ MesherOp.create_celldomain domain domain_id) →
          (Mesher.step eng toD toI freshMesh st op).celldomains = st.celldomains)
      ∧ (∀ op : MesherOp C M,
          (∀ (domain : C) (domain_id : Int),
            op ≠ MesherOp.create_facetdomain domain domain_id) →
          (Mesher.step eng toD toI freshMesh st op).facetdomains = st.facetdomains)
      ∧ (∀ (ops : List (MesherOp C M)) (x : C), x ∈ st.celldomains →
          x ∈ (Mesher.run eng toD toI freshMesh st ops).celldomains)
      ∧ (∀ (ops : List (MesherOp C M)) (x : C), x ∈ st.facetdomains →
          x ∈ (Mesher.run eng toD toI freshMesh st ops).facetdomains) := by
  intro C D I M Err R eng toD toI freshMesh st
  refine ⟨fun domain domain_id => ⟨rfl, rfl⟩, fun domain domain_id => ⟨rfl, rfl⟩,
    step_retention eng toD toI freshMesh st, ?_, ?_,
    fun ops x h => run_mem_celldomains eng toD toI freshMesh ops st x h,
    fun ops x h => run_mem_facetdomains eng toD toI freshMesh ops st x h⟩
  · intro op hop
    cases op with
    | create_cuboid size n => rfl
    | create_celldomain d i => exact absurd rfl (hop d i)
    | create_facetdomain d i => rfl
    | create_shell d m n p => rfl
    | mesh sc m => simp [Mesher.step, mesh_state_eq]
    | get_sample_size i sc => simp [Mesher.step, get_sample_size_state_eq]
    | read_file p => rfl
  · intro op hop
    cases op with
    | create_cuboid size n => rfl
    | create_celldomain d i => rfl
    | create_facetdomain d i => exact absurd rfl (hop d i)
    | create_shell d m n p => rfl
    | mesh sc m => simp [Mesher.step, mesh_state_eq]
    | get_sample_size i sc => simp [Mesher.step, get_sample_size_state_eq]
    | read_file p => rfl

/-- Witness for C3 on a concrete builder run. -/
theorem retention_monotone_witness :
    (Mesher.create_celldomain natEngine (⟨[5], []⟩ : MesherState Nat) 7 1).1.celldomains
        = [5, 7]
    ∧ (Mesher.step natEngine (fun q => q) Rat.floor 0
        (⟨[5], []⟩ : MesherState Nat) (MesherOp.read_file [])).celldomains = [5]
    ∧ 5 ∈ (Mesher.run natEngine (fun q => q) Rat.floor 0
        (⟨[5], []⟩ : MesherState Nat)
        [MesherOp.read_file [], MesherOp.mesh none none]).celldomains :=
  have h := retention_monotone Nat ℚ Int Nat Nat Nat natEngine (fun q => q)
    Rat.floor 0 ⟨[5], []⟩
  ⟨(h.1 7 1).1,
    h.2.2.2.1 (MesherOp.read_file []) (fun d i hh => by cases hh),
    h.2.2.2.2.2.1 [MesherOp.read_file [], MesherOp.mesh none none] 5 (by simp)⟩

/-- C8: every wrapper operation and the dispatcher hand back exactly the
result of the external call they make; any raised error is returned unchanged,
with no retry, recovery, or translation. -/
theorem errors_propagate_unchanged :
    ∀ (C D I M Err R : Type) (eng : MeshEngine C D I M Err R) (toD : ℚ → D)
      (toI : ℚ → I) (freshMesh : M)
      (dolfinMesh : List PyVal → Kwargs → Except Err M) (reErr : Err)
      (st : MesherState C),
      (∀ size n, (Mesher.create_cuboid eng toD toI st size n).2.2
          = eng.create_cuboid (npArrayD toD size) (npArrayI toI n))
      ∧ (∀ domain domain_id, (Mesher.create_celldomain eng st domain domain_id).2.2
          = eng.create_celldomain domain domain_id)
      ∧ (∀ domain domain_id, (Mesher.create_facetdomain eng st domain domain_id).2.2
          = eng.create_facetdomain domain domain_id)
      ∧ (∀ d margin n progression,
          (Mesher.create_shell eng toI st d margin n progression).2.2
            = eng.create_shell d (margin.getD 0) (npArrayI toI (n.getD ⟨0, 0, 0⟩))
                (progression.getD 1))
      ∧ (∀ path, (Mesher.read_file eng st path).2.2 = eng.read_file path)
      ∧ (∀ (scale : Option ℚ) (m : M),
          (Mesher.mesh eng freshMesh st scale (some m)).2.2
            = Except.map (fun _ => m) (eng.mesh m (scale.getD 1)))
      ∧ (∀ scale : Option ℚ, (Mesher.mesh eng freshMesh st scale none).2.2
          = Except.map (fun _ => freshMesh) (eng.mesh freshMesh (scale.getD 1)))
      ∧ (∀ (j : Int) (scale : Option ℚ),
          (Mesher.get_sample_size eng st (some j) scale).2.2
            = Except.map (fun v => Sum.inl (v * scale.getD 1))
                (eng.get_sample_size j))
      ∧ (∀ scale : Option ℚ, (Mesher.get_sample_size eng st none scale).2.2
          = Except.bind (eng.get_sample_size 0) (fun v0 =>
              Except.bind (eng.get_sample_size 1) (fun v1 =>
                Except.map (fun v2 => Sum.inr [v0 * scale.getD 1,
                  v1 * scale.getD 1, v2 * scale.getD 1])
                  (eng.get_sample_size 2))))
      ∧ (∀ (args : List PyVal) (kwargs : Kwargs), args.length ≠ 1 →
          (Mesh eng freshMesh dolfinMesh reErr args kwargs).2.2
            = dolfinMesh args kwargs)
      ∧ (∀ (s : List Char) (kwargs : Kwargs), reMatchXml s = true →
          (Mesh eng freshMesh dolfinMesh reErr [PyVal.str s] kwargs).2.2
            = dolfinMesh [PyVal.str s] kwargs)
      ∧ (∀ (s : List Char) (kwargs : Kwargs), reMatchXml s = false →
          (Mesh eng freshMesh dolfinMesh reErr [PyVal.str s] kwargs).2.2
            = Except.bind (eng.read_file s) (fun _ =>
                Except.map (fun _ => freshMesh) (eng.mesh freshMesh 1))) := by
  intro C D I M Err R eng toD toI freshMesh dolfinMesh reErr st
  refine ⟨fun size n => rfl, fun domain domain_id => rfl, fun domain domain_id => rfl,
    fun d margin n progression => rfl, fun path => rfl, ?_, ?_, ?_, ?_, ?_, ?_, ?_⟩
  · intro scale m
    cases h : eng.mesh m (scale.getD 1) <;> simp [Mesher.mesh, h, Except.map]
  · intro scale
    cases h : eng.mesh freshMesh (scale.getD 1) <;> simp [Mesher.mesh, h, Except.map]
  · intro j scale
    cases h : eng.get_sample_size j <;>
      simp [Mesher.get_sample_size, h, Except.map]
  · intro scale
    cases h0 : eng.get_sample_size 0 with
    | error e => simp [Mesher.get_sample_size, h0, Except.bind]
    | ok v0 =>
      cases h1 : eng.get_sample_size 1 with
      | error e => simp [Mesher.get_sample_size, h0, h1, Except.bind]
      | ok v1 =>
        cases h2 : eng.get_sample_size 2 with
        | error e => simp [Mesher.get_sample_size, h0, h1, h2, Except.bind, Except.map]
        | ok v2 => simp [Mesher.get_sample_size, h0, h1, h2, Except.bind, Except.map]
  · intro args kwargs h
    match args with
    | [] => rfl
    | [a] => exact absurd rfl h
    | a :: b :: t => cases a <;> rfl
  · intro s kwargs hs
    simp [Mesh, hs]
  · intro s kwargs hs
    cases hr : eng.read_file s with
    | error e =>
      simp [Mesh, hs, hr, Except.bind]
    | ok u =>
      cases hm : eng.mesh freshMesh 1 with
      | error e =>
        simp [Mesh, hs, hr, hm, Mesher.mesh, Mesher.init, Except.bind, Except.map]
      | ok w =>
        simp [Mesh, hs, hr, hm, Mesher.mesh, Mesher.init, Except.bind, Except.map]

/-- Witness for C8: the dispatcher branches on a concrete engine. -/
theorem errors_propagate_unchanged_witness :
    (Mesh natEngine 5 natDolfin 99 [PyVal.obj 1, PyVal.obj 2] []).2.2
        = natDolfin [PyVal.obj 1, PyVal.obj 2] []
    ∧ (Mesh natEngine 5 natDolfin 99 [PyVal.str ("b.xml".toList)] []).2.2
        = natDolfin [PyVal.str ("b.xml".toList)] []
    ∧ (Mesh natEngine 5 natDolfin 99 [PyVal.str ("c.stl".toList)] []).2.2
        = Except.bind (natEngine.read_file ("c.stl".toList)) (fun _ =>
            Except.map (fun _ => (5 : Nat)) (natEngine.mesh 5 1)) :=
  have h := errors_propagate_unchanged Nat ℚ Int Nat Nat Nat natEngine
    (fun q => q) Rat.floor 5 natDolfin 99 ⟨[], []⟩
  ⟨h.2.2.2.2.2.2.2.2.2.1 [PyVal.obj 1, PyVal.obj 2] [] (by decide),
    h.2.2.2.2.2.2.2.2.2.2.1 ("b.xml".toList) [] (by decide),
    h.2.2.2.2.2.2.2.2.2.2.2 ("c.stl".toList) [] (by decide)⟩

example : reMatchXml ("a.xml".toList) = true := by decide
example : reMatchXml ("a.xml\n".toList) = true := by decide
example : reMatchXml ("a\n.xml".toList) = false := by decide
example : reMatchXml ("model.stl".toList) = false := by decide
example : endsWithXml ("a.xml\n".toList) = false := by decide
example : endsWithXml ("a\n.xml".toList) = true := by decide
example :
    (Mesh natEngine 5 natDolfin 99 [PyVal.str ("model.stl".toList)] []).1
      = MeshRoute.viaMesher ("model.stl".toList) := by decide
example :
    (Mesh natEngine 5 natDolfin 99 [PyVal.str ("saved.xml".toList)] []).1
      = MeshRoute.viaDolfin [PyVal.str ("saved.xml".toList)] [] := by decide

end MagnumMsh
